import Mathlib

/-!
# Formal model of the robot-head autonomous behavior core

Shallow embedding, in Lean 4, of the behavior core of the `robot-1`
repository: the math helpers (`src/utils/math_helpers.py`), the eye
animator (`src/eyes/animator.py` with `src/eyes/eye_state.py` and the
`AnimationConfig` dataclass of `src/config.py`), the face tracker
(`src/tracking/tracker.py`), the environment aggregator
(`src/environment.py`) and the mood engine (`src/mood_engine.py`).

Python floats are modelled as exact rationals (`ℚ`).  Calls to
`random.uniform` / `random.choice` are modelled by passing the drawn
value (or chosen index) in explicitly as an input, so every function is
a deterministic function of its inputs and the supplied draws.
Mutation of `self` is modelled by explicit state passing; functions that
issue `set_mood(...)` calls additionally return the list of mood ids
issued, in order.
-/

namespace RobotHead

/-- `lerp` from `src/utils/math_helpers.py`: `a + (b - a) * t`. -/
def lerp (a b t : ℚ) : ℚ := a + (b - a) * t

/-- `clamp` from `src/utils/math_helpers.py`: `max(min_val, min(max_val, value))`. -/
def clamp (value minVal maxVal : ℚ) : ℚ := max minVal (min maxVal value)

/-- `EyeState` dataclass from `src/eyes/eye_state.py`. -/
structure EyeState where
  pupil_x : ℚ := 0
  pupil_y : ℚ := 0
  upper_eyelid : ℚ := 0
  lower_eyelid : ℚ := 0
  pupil_scale : ℚ := 1
  brow_angle : ℚ := 0
  squint : ℚ := 0
  is_left : Bool := true
  deriving Repr, DecidableEq

/-- `AnimationConfig` dataclass from `src/config.py` (defaults included). -/
structure AnimationConfig where
  blink_interval_min : ℚ := 2
  blink_interval_max : ℚ := 6
  blink_duration : ℚ := 1/5
  pursuit_smoothing : ℚ := 3/20
  idle_interval_min : ℚ := 3/2
  idle_interval_max : ℚ := 4
  idle_range_x : ℚ := 3/5
  idle_range_y : ℚ := 3/10
  deriving Repr, DecidableEq

/-- The two animator modes (`Mode` enum in `src/eyes/animator.py`). -/
inductive Mode where
  | TRACKING
  | IDLE
  deriving Repr, DecidableEq

/-- Mutable state of `EyeAnimator` (`src/eyes/animator.py`).
Tuples `(x, y)` become pairs of rationals. -/
structure EyeAnimatorState where
  cfg : AnimationConfig
  mode : Mode
  left : EyeState
  right : EyeState
  current_gaze : ℚ × ℚ
  target_gaze : ℚ × ℚ
  idle_target : ℚ × ℚ
  idle_timer : ℚ
  idle_next : ℚ
  blink_timer : ℚ
  next_blink : ℚ
  blinking : Bool
  blink_progress : ℚ
  no_face_time : ℚ
  deriving Repr, DecidableEq

/-- The values drawn from `random` during one `EyeAnimator.update` call:
the idle wander point, the next idle interval, and the next blink
interval.  Each is consumed only on the code path that calls
`random.uniform` for it. -/
structure AnimDraws where
  idle_x : ℚ
  idle_y : ℚ
  idle_next : ℚ
  next_blink : ℚ
  deriving Repr, DecidableEq

namespace EyeAnimator

/-- Body of `EyeAnimator.__init__` (the two `random.uniform` results are
the inputs `dIdle` and `dBlink`). -/
def initState (cfg : AnimationConfig) (dIdle dBlink : ℚ) : EyeAnimatorState :=
  { cfg := cfg
    mode := Mode.IDLE
    left := { is_left := true }
    right := { is_left := false }
    current_gaze := (0, 0)
    target_gaze := (0, 0)
    idle_target := (0, 0)
    idle_timer := 0
    idle_next := dIdle
    blink_timer := 0
    next_blink := dBlink
    blinking := false
    blink_progress := 0
    no_face_time := 0 }

/-- `EyeAnimator.__init__` as Python construction: the constructor body
contains no `raise`, so construction always succeeds. -/
def init (cfg : AnimationConfig) (dIdle dBlink : ℚ) : Except String EyeAnimatorState :=
  Except.ok (initState cfg dIdle dBlink)

/-- `EyeAnimator._update_idle`. -/
def updateIdle (s : EyeAnimatorState) (dt : ℚ) (dr : AnimDraws) : EyeAnimatorState :=
  let t := s.idle_timer + dt
  if t ≥ s.idle_next then
    { s with idle_target := (dr.idle_x, dr.idle_y)
             idle_timer := 0
             idle_next := dr.idle_next }
  else
    { s with idle_timer := t }

/-- `EyeAnimator._update_blink`. -/
def updateBlink (s : EyeAnimatorState) (dt : ℚ) (dr : AnimDraws) : EyeAnimatorState :=
  if s.blinking then
    let p := s.blink_progress + dt / s.cfg.blink_duration
    if p ≥ 1 then
      { s with blink_progress := 0
               blinking := false
               next_blink := dr.next_blink }
    else
      { s with blink_progress := p }
  else
    let t := s.blink_timer + dt
    if t ≥ s.next_blink then
      { s with blinking := true
               blink_timer := 0
               blink_progress := 0 }
    else
      { s with blink_timer := t }

/-- `EyeAnimator._blink_curve`: triangle wave over blink progress. -/
def blinkCurve (s : EyeAnimatorState) : ℚ :=
  if s.blinking = false then 0
  else if s.blink_progress < 1/2 then s.blink_progress * 2
  else (1 - s.blink_progress) * 2

/-- First half of `EyeAnimator.update` (lines up to the smooth-pursuit
step): mode switching on the optional face position, idle wander while
in IDLE mode, then the single-pole lerp of the current gaze toward the
target gaze. -/
def gazeStep (s : EyeAnimatorState) (dt : ℚ) (face_position : Option (ℚ × ℚ))
    (dr : AnimDraws) : EyeAnimatorState :=
  let s1 :=
    match face_position with
    | some p =>
        { s with mode := Mode.TRACKING, target_gaze := p, no_face_time := 0 }
    | none =>
        let sa := { s with no_face_time := s.no_face_time + dt }
        let sb :=
          if sa.mode = Mode.TRACKING ∧ sa.no_face_time > 3/10 then
            { sa with mode := Mode.IDLE }
          else sa
        if sb.mode = Mode.IDLE then
          let sc := updateIdle sb dt dr
          { sc with target_gaze := sc.idle_target }
        else sb
  let smoothing := s1.cfg.pursuit_smoothing
  { s1 with
    current_gaze :=
      (lerp s1.current_gaze.1 s1.target_gaze.1 smoothing,
       lerp s1.current_gaze.2 s1.target_gaze.2 smoothing) }

/-- Second half of `EyeAnimator.update`: the blink sub-machine, the
eyelid value from the blink curve, and the clamped pupil output with the
fixed vergence offset applied after clamping. -/
def finishUpdate (s2 : EyeAnimatorState) (dt : ℚ) (dr : AnimDraws) :
    EyeAnimatorState :=
  let s3 := updateBlink s2 dt dr
  let blink_eyelid := blinkCurve s3
  let vergence : ℚ := 3/100
  { s3 with
    left := { s3.left with
      pupil_x := clamp s3.current_gaze.1 (-1) 1 + vergence
      pupil_y := clamp s3.current_gaze.2 (-1) 1
      upper_eyelid := blink_eyelid
      lower_eyelid := blink_eyelid * (2/5) }
    right := { s3.right with
      pupil_x := clamp s3.current_gaze.1 (-1) 1 - vergence
      pupil_y := clamp s3.current_gaze.2 (-1) 1
      upper_eyelid := blink_eyelid
      lower_eyelid := blink_eyelid * (2/5) } }

/-- `EyeAnimator.update`: mode switching, smooth pursuit, blink update,
eyelid computation, clamped pupil output plus vergence.  The returned
`(left, right)` pair of the Python method is exactly the `left`/`right`
fields of the returned state. -/
def update (s : EyeAnimatorState) (dt : ℚ) (face_position : Option (ℚ × ℚ))
    (dr : AnimDraws) : EyeAnimatorState :=
  finishUpdate (gazeStep s dt face_position dr) dt dr

/-- A whole run of the animator: fold `update` over a list of
`(dt, face_position, draws)` inputs starting from a freshly constructed
state. -/
def run (cfg : AnimationConfig) (dIdle dBlink : ℚ)
    (inputs : List (ℚ × Option (ℚ × ℚ) × AnimDraws)) : EyeAnimatorState :=
  inputs.foldl (fun s i => update s i.1 i.2.1 i.2.2) (initState cfg dIdle dBlink)

end EyeAnimator

/-- A detection bounding box `(x, y, w, h)` in pixel coordinates. -/
structure Box where
  x : ℚ
  y : ℚ
  w : ℚ
  h : ℚ
  deriving Repr, DecidableEq

/-- Bounding-box area `w * h`, the key used by `max(faces, key=...)`. -/
def Box.area (b : Box) : ℚ := b.w * b.h

/-- Mutable state of `FaceTracker` (`src/tracking/tracker.py`). -/
structure FaceTrackerState where
  smoothing : ℚ := 3/10
  lost_timeout : ℚ := 1/2
  last_detection_time : ℚ := 0
  current : Option (ℚ × ℚ) := none
  raw : Option (ℚ × ℚ) := none
  deriving Repr, DecidableEq

namespace FaceTracker

/-- `max(faces, key=lambda f: f[2] * f[3])` over the non-empty list
`f :: rest`.  Python's `max` keeps the current best on ties and replaces
it only on a strictly greater key, so ties are broken in favor of the
earliest element. -/
def pickBiggest (f : Box) (rest : List Box) : Box :=
  rest.foldl (fun best g => if g.area > best.area then g else best) f

/-- `FaceTracker.update`: detection selection and normalization, loss
timeout, then exponential smoothing.  Returns the new state together
with the returned value (`None` or the smoothed `(x, y)`). -/
def update (s : FaceTrackerState) (faces : List Box) (frame_w frame_h : ℚ)
    (timestamp : ℚ) : FaceTrackerState × Option (ℚ × ℚ) :=
  let s1 :=
    match faces with
    | [] => s
    | f :: rest =>
        let b := pickBiggest f rest
        let cx := (b.x + b.w / 2) / frame_w * 2 - 1
        let cy := (b.y + b.h / 2) / frame_h * 2 - 1
        { s with raw := some (-cx, cy), last_detection_time := timestamp }
  if timestamp - s1.last_detection_time > s1.lost_timeout then
    ({ s1 with current := none }, none)
  else
    match s1.raw with
    | none => (s1, none)
    | some r =>
        match s1.current with
        | none => ({ s1 with current := some r }, some r)
        | some c =>
            let n := (lerp c.1 r.1 s1.smoothing, lerp c.2 r.2 s1.smoothing)
            ({ s1 with current := some n }, some n)

end FaceTracker

/-- Mutable state of `EnvironmentState` (`src/environment.py`). -/
structure EnvState where
  face_position : Option (ℚ × ℚ) := none
  brightness : ℚ := 50
  brightness_tau : ℚ := 1
  motion_level : ℚ := 0
  face_present : Bool := false
  face_appeared_at : ℚ := 0
  face_lost_at : ℚ := 0
  face_continuous_secs : ℚ := 0
  last_update : ℚ
  deriving Repr, DecidableEq

namespace EnvironmentState

/-- `EnvironmentState.update_from_tracking`.  The grey frame only enters
through `np.mean(grey)`, so the embedding takes that mean directly as
`raw_brightness`; `now` (from `time.monotonic()`) is an explicit input. -/
def update_from_tracking (s : EnvState) (raw_brightness : ℚ) (faces : List Box)
    (position : Option (ℚ × ℚ)) (w h : ℚ) (now : ℚ) : EnvState :=
  let motion : ℚ :=
    match faces with
    | [] => 0
    | _ => min ((faces.map Box.area).sum / max (w * h) 1) 1
  let dt := now - s.last_update
  let s := { s with last_update := now }
  let s :=
    if dt > 0 then
      let alpha := min 1 (dt / s.brightness_tau)
      { s with brightness := s.brightness + alpha * (raw_brightness - s.brightness) }
    else s
  let s := { s with motion_level := motion }
  let was_present := s.face_present
  let is_present := position.isSome
  let s :=
    if is_present && !was_present then
      { s with face_appeared_at := now, face_continuous_secs := 0 }
    else if is_present && was_present then
      { s with face_continuous_secs := now - s.face_appeared_at }
    else if !is_present && was_present then
      { s with face_lost_at := now, face_continuous_secs := 0 }
    else s
  { s with face_present := is_present, face_position := position }

end EnvironmentState

/-- The six mood-engine states (module-level string constants in
`src/mood_engine.py`). -/
inductive MState where
  | SLEEPING
  | WAKING
  | IDLE
  | ENGAGED
  | BONDED
  | BORED
  deriving Repr, DecidableEq

/-- `_IDLE_PERSONALITY` pool. -/
def idlePersonality : List String := ["surprised", "mischievous", "wink", "star", "tired"]

/-- `_BORED_MOODS` rotation. -/
def boredMoods : List String := ["tired", "confused", "sleepy", "sad"]

/-- `_BONDED_AFFECTION` pool. -/
def bondedAffection : List String := ["happy", "love", "wink", "celebrating"]

/-- The configuration fields `MoodEngine` reads from its `config`
argument (supplied externally; no corresponding dataclass exists under
`src/`). -/
structure MoodCfg where
  sleep_brightness : ℚ
  dark_to_sleep_secs : ℚ
  wake_brightness : ℚ
  bright_to_wake_secs : ℚ
  waking_duration : ℚ
  idle_to_bored_secs : ℚ
  bored_mood_cycle_secs : ℚ
  engaged_to_bonded_secs : ℚ
  face_lost_to_idle_secs : ℚ
  motion_surprise_threshold : ℚ
  personality_interval_min : ℚ
  personality_interval_max : ℚ
  bonded_affection_interval_min : ℚ
  bonded_affection_interval_max : ℚ
  manual_pause_secs : ℚ
  deriving Repr, DecidableEq

/-- Mutable state of `MoodEngine` (`src/mood_engine.py`). -/
structure MoodEngineState where
  cfg : MoodCfg
  state : MState
  state_entered : ℚ
  enabled : Bool
  manual_override_until : ℚ
  bright_since : ℚ
  dark_since : ℚ
  next_personality : ℚ
  personality_revert_at : ℚ
  bored_mood_idx : ℕ
  bored_next_switch : ℚ
  next_bonded_affection : ℚ
  waking_phase2_at : ℚ
  greeting_revert_at : ℚ
  sad_revert_at : ℚ
  prev_face_present : Bool
  deriving Repr, DecidableEq

/-- The environment snapshot dict consumed by `MoodEngine.tick`
(produced by `EnvironmentState.get_snapshot`). -/
structure EnvSnap where
  brightness : ℚ
  motion_level : ℚ
  face_present : Bool
  face_continuous_secs : ℚ
  face_lost_ago : ℚ
  time : ℚ
  deriving Repr, DecidableEq

/-- The values a single `MoodEngine.tick` may draw from `random`:
`uniform(8, 15)`, `uniform(2.0, 4.0)`, `uniform(10, 20)`, a
configured-interval `uniform`, and a `random.choice` index. -/
structure MoodDraws where
  u8_15 : ℚ
  u2_4 : ℚ
  u10_20 : ℚ
  uInterval : ℚ
  choiceIdx : ℕ
  deriving Repr, DecidableEq

namespace MoodEngine

/-- Body of `MoodEngine.__init__` (`now` is `time.monotonic()` and
`dPersonality` the `random.uniform(8, 15)` result). -/
def initState (cfg : MoodCfg) (now dPersonality : ℚ) : MoodEngineState :=
  { cfg := cfg
    state := MState.IDLE
    state_entered := now
    enabled := true
    manual_override_until := 0
    bright_since := 0
    dark_since := 0
    next_personality := now + dPersonality
    personality_revert_at := 0
    bored_mood_idx := 0
    bored_next_switch := 0
    next_bonded_affection := 0
    waking_phase2_at := 0
    greeting_revert_at := 0
    sad_revert_at := 0
    prev_face_present := false }

/-- `MoodEngine.__init__` as Python construction: the constructor body
contains no `raise`, so construction always succeeds. -/
def init (cfg : MoodCfg) (now dPersonality : ℚ) : Except String MoodEngineState :=
  Except.ok (initState cfg now dPersonality)

/-- `MoodEngine.notify_manual_mood` (`now` is `time.monotonic()`). -/
def notifyManualMood (s : MoodEngineState) (now : ℚ) : MoodEngineState :=
  { s with manual_override_until := now + s.cfg.manual_pause_secs }

/-- `MoodEngine._start_waking`: transition to WAKING, emit "tired",
schedule phase 2. -/
def startWaking (s : MoodEngineState) (now : ℚ) : MoodEngineState × List String :=
  ({ s with state := MState.WAKING
            state_entered := now
            waking_phase2_at := now + s.cfg.waking_duration / 2 }, ["tired"])

/-- `MoodEngine._tick_sleeping`. -/
def tickSleeping (s : MoodEngineState) (now : ℚ) (face_appeared : Bool) :
    MoodEngineState × List String :=
  if s.bright_since > 0 ∧ now - s.bright_since ≥ s.cfg.bright_to_wake_secs then
    startWaking s now
  else if face_appeared then
    startWaking s now
  else (s, [])

/-- `MoodEngine._tick_waking`. -/
def tickWaking (s : MoodEngineState) (now : ℚ) (dr : MoodDraws) :
    MoodEngineState × List String :=
  let p :=
    if now ≥ s.waking_phase2_at ∧ s.waking_phase2_at > 0 then
      ({ s with waking_phase2_at := 0 }, ["neutral"])
    else (s, ([] : List String))
  let s := p.1
  if now - s.state_entered ≥ s.cfg.waking_duration then
    ({ s with state := MState.IDLE
              state_entered := now
              next_personality := now + dr.u8_15 }, p.2 ++ ["neutral"])
  else (s, p.2)

/-- `MoodEngine._tick_idle`.  Python float truthiness (`if self._x and
...`) becomes an explicit `≠ 0` test. -/
def tickIdle (s : MoodEngineState) (now : ℚ) (face_appeared : Bool)
    (face_lost_ago motion : ℚ) (dr : MoodDraws) : MoodEngineState × List String :=
  let p1 :=
    if s.sad_revert_at ≠ 0 ∧ now ≥ s.sad_revert_at then
      ({ s with sad_revert_at := 0 }, ["neutral"])
    else (s, ([] : List String))
  let s := p1.1
  let p2 :=
    if s.personality_revert_at ≠ 0 ∧ now ≥ s.personality_revert_at then
      ({ s with personality_revert_at := 0 }, ["neutral"])
    else (s, ([] : List String))
  let s := p2.1
  let calls := p1.2 ++ p2.2
  if face_appeared then
    ({ s with state := MState.ENGAGED
              state_entered := now
              greeting_revert_at := now + 3 }, calls ++ ["happy"])
  else if motion > s.cfg.motion_surprise_threshold ∧ s.personality_revert_at = 0 then
    ({ s with personality_revert_at := now + 2
              next_personality := now + dr.u8_15 }, calls ++ ["surprised"])
  else if now - s.state_entered ≥ s.cfg.idle_to_bored_secs then
    ({ s with state := MState.BORED
              state_entered := now
              bored_mood_idx := 0
              bored_next_switch := now + s.cfg.bored_mood_cycle_secs },
     calls ++ [boredMoods.getD 0 ""])
  else if now ≥ s.next_personality ∧ s.personality_revert_at = 0 then
    ({ s with personality_revert_at := now + dr.u2_4
              next_personality := now + dr.uInterval },
     calls ++ [idlePersonality.getD (dr.choiceIdx % idlePersonality.length) ""])
  else (s, calls)

/-- `MoodEngine._tick_engaged`. -/
def tickEngaged (s : MoodEngineState) (now : ℚ) (face_present : Bool)
    (face_continuous : ℚ) (face_lost : Bool) (face_lost_ago : ℚ)
    (dr : MoodDraws) : MoodEngineState × List String :=
  let p :=
    if s.greeting_revert_at ≠ 0 ∧ now ≥ s.greeting_revert_at then
      ({ s with greeting_revert_at := 0 }, ["neutral"])
    else (s, ([] : List String))
  let s := p.1
  if face_continuous ≥ s.cfg.engaged_to_bonded_secs then
    ({ s with state := MState.BONDED
              state_entered := now
              next_bonded_affection := now + dr.u10_20 }, p.2 ++ ["neutral"])
  else if ¬face_present ∧ face_lost_ago ≥ s.cfg.face_lost_to_idle_secs then
    ({ s with state := MState.IDLE
              state_entered := now
              sad_revert_at := now + 3
              next_personality := now + dr.u8_15 }, p.2 ++ ["sad"])
  else (s, p.2)

/-- `MoodEngine._tick_bonded`. -/
def tickBonded (s : MoodEngineState) (now : ℚ) (face_present face_lost : Bool)
    (dr : MoodDraws) : MoodEngineState × List String :=
  if face_lost then
    ({ s with state := MState.IDLE
              state_entered := now
              sad_revert_at := now + 3
              next_personality := now + dr.u8_15 }, ["sad"])
  else if face_present ∧ now ≥ s.next_bonded_affection then
    ({ s with greeting_revert_at := now + dr.u2_4
              next_bonded_affection := now + dr.uInterval },
     [bondedAffection.getD (dr.choiceIdx % bondedAffection.length) ""])
  else (s, [])

/-- `MoodEngine._tick_bored`. -/
def tickBored (s : MoodEngineState) (now : ℚ) (face_appeared : Bool) :
    MoodEngineState × List String :=
  if face_appeared then
    ({ s with state := MState.ENGAGED
              state_entered := now
              greeting_revert_at := now + 3 }, ["excited"])
  else if now ≥ s.bored_next_switch then
    let i := (s.bored_mood_idx + 1) % boredMoods.length
    ({ s with bored_mood_idx := i
              bored_next_switch := now + s.cfg.bored_mood_cycle_secs },
     [boredMoods.getD i ""])
  else (s, [])

/-- The part of `MoodEngine.tick` after the global dark check:
sustained-bright bookkeeping, face edge detection, then dispatch to
exactly one per-state handler. -/
def afterDark (s : MoodEngineState) (env : EnvSnap) (dr : MoodDraws) :
    MoodEngineState × List String :=
  let now := env.time
  let s :=
    if env.brightness ≥ s.cfg.wake_brightness then
      if s.bright_since = 0 then { s with bright_since := now } else s
    else { s with bright_since := 0 }
  let face_appeared := env.face_present && !s.prev_face_present
  let face_lost := !env.face_present && s.prev_face_present
  let s := { s with prev_face_present := env.face_present }
  match s.state with
  | MState.SLEEPING => tickSleeping s now face_appeared
  | MState.WAKING => tickWaking s now dr
  | MState.IDLE => tickIdle s now face_appeared env.face_lost_ago env.motion_level dr
  | MState.ENGAGED =>
      tickEngaged s now env.face_present env.face_continuous_secs face_lost
        env.face_lost_ago dr
  | MState.BONDED => tickBonded s now env.face_present face_lost dr
  | MState.BORED => tickBored s now face_appeared

/-- `MoodEngine.tick`: enabled gate, manual-override gate, global
dark-to-SLEEPING check (with its early return), then `afterDark`.
Returns the new state and the list of `set_mood` ids issued. -/
def tick (s : MoodEngineState) (env : EnvSnap) (dr : MoodDraws) :
    MoodEngineState × List String :=
  if s.enabled = false then (s, [])
  else
    let now := env.time
    if now < s.manual_override_until then (s, [])
    else if env.brightness < s.cfg.sleep_brightness then
      if s.dark_since = 0 then afterDark { s with dark_since := now } env dr
      else if now - s.dark_since ≥ s.cfg.dark_to_sleep_secs ∧ s.state ≠ MState.SLEEPING then
        ({ s with state := MState.SLEEPING, state_entered := now }, ["sleepy"])
      else afterDark s env dr
    else afterDark { s with dark_since := 0 } env dr

end MoodEngine

/-! ### Concrete instances used to exercise the model -/

/-- A representative mood-engine configuration (values follow the state
diagram in the header comment of `src/mood_engine.py`). -/
def cfg0 : MoodCfg :=
  { sleep_brightness := 10
    dark_to_sleep_secs := 30
    wake_brightness := 40
    bright_to_wake_secs := 5
    waking_duration := 3
    idle_to_bored_secs := 120
    bored_mood_cycle_secs := 10
    engaged_to_bonded_secs := 60
    face_lost_to_idle_secs := 5
    motion_surprise_threshold := 1/2
    personality_interval_min := 8
    personality_interval_max := 15
    bonded_affection_interval_min := 10
    bonded_affection_interval_max := 20
    manual_pause_secs := 30 }

/-- A mood engine freshly constructed at `t = 100`. -/
def engine0 : MoodEngineState := MoodEngine.initState cfg0 100 10

/-- A bland daylight snapshot at `t = 200`. -/
def env0 : EnvSnap :=
  { brightness := 50
    motion_level := 0
    face_present := false
    face_continuous_secs := 0
    face_lost_ago := 999
    time := 200 }

/-- A fixed bundle of random draws, each inside its documented range. -/
def draws0 : MoodDraws :=
  { u8_15 := 10, u2_4 := 3, u10_20 := 15, uInterval := 12, choiceIdx := 0 }

/-- An animation configuration with a negative duration and inverted
interval bounds (`min > max`) for both the blink and the idle intervals. -/
def badAnimCfg : AnimationConfig :=
  { blink_interval_min := 6
    blink_interval_max := 2
    blink_duration := -1
    pursuit_smoothing := 3/20
    idle_interval_min := 4
    idle_interval_max := 3/2
    idle_range_x := 3/5
    idle_range_y := 3/10 }

/-- A mood-engine configuration with a negative duration and inverted
interval bounds. -/
def badMoodCfg : MoodCfg :=
  { cfg0 with
    waking_duration := -3
    manual_pause_secs := -5
    personality_interval_min := 15
    personality_interval_max := 8 }

/-- A fixed bundle of animator draws, each inside its documented range
for the default `AnimationConfig`. -/
def animDraws0 : AnimDraws :=
  { idle_x := 0, idle_y := 0, idle_next := 3, next_blink := 4 }

/-- 22 render ticks with `dt = 0`, a face target pinned at the corner
`(1, 0)` of the documented `[-1, 1]²` gaze domain, and fixed in-range
draws. -/
def gazeCornerInputs : List (ℚ × Option (ℚ × ℚ) × AnimDraws) :=
  List.replicate 22 ((0 : ℚ), some ((1 : ℚ), (0 : ℚ)), animDraws0)

/-- The per-eye bounds the animator actually guarantees: eyelids in
`[0, 1]`, `pupil_y` in `[-1, 1]`, and `pupil_x` in `[-1 - v, 1 + v]`
where `v = 3/100` is the vergence offset added after clamping. -/
def eyeBounded (e : EyeState) : Prop :=
  -(103/100) ≤ e.pupil_x ∧ e.pupil_x ≤ 103/100 ∧
  -1 ≤ e.pupil_y ∧ e.pupil_y ≤ 1 ∧
  0 ≤ e.upper_eyelid ∧ e.upper_eyelid ≤ 1 ∧
  0 ≤ e.lower_eyelid ∧ e.lower_eyelid ≤ 1

end RobotHead

namespace RobotHead

/-! ## Theorems -/

/-- C10: when the mood engine's enabled flag is `False`, every
`tick(dt, env)` call is a complete no-op: the state is unchanged and no
`set_mood` call is issued, for every snapshot and every random draw. -/
theorem disabled_tick_is_noop (s : MoodEngineState) (env : EnvSnap)
    (dr : MoodDraws) (h : s.enabled = false) :
    MoodEngine.tick s env dr = (s, []) := by
  simp [MoodEngine.tick, h]

/-- Witness for `disabled_tick_is_noop` at a concrete disabled engine. -/
theorem disabled_tick_is_noop_witness :
    MoodEngine.tick { engine0 with enabled := false } env0 draws0 =
      ({ engine0 with enabled := false }, []) :=
  disabled_tick_is_noop { engine0 with enabled := false } env0 draws0 rfl

/-- C2: `notify_manual_mood` at time `t0` changes only the override
deadline, setting it to `t0 + manual_pause_secs`; every tick whose
snapshot time is strictly before that deadline is a complete no-op (no
field changes, no `set_mood` calls) regardless of the snapshot content.
Automatic logic after the deadline therefore resumes from exactly the
state and timers held before the pause, since nothing else was touched. -/
theorem manual_override_pause_noop (s : MoodEngineState) (t0 : ℚ)
    (env : EnvSnap) (dr : MoodDraws)
    (h : env.time < t0 + s.cfg.manual_pause_secs) :
    MoodEngine.notifyManualMood s t0 =
      { s with manual_override_until := t0 + s.cfg.manual_pause_secs } ∧
    MoodEngine.tick (MoodEngine.notifyManualMood s t0) env dr =
      (MoodEngine.notifyManualMood s t0, []) := by
  refine ⟨rfl, ?_⟩
  by_cases he : s.enabled = false <;>
    simp [MoodEngine.tick, MoodEngine.notifyManualMood, he, h]

/-- Witness for `manual_override_pause_noop`: notify at `t0 = 200`,
then tick with a drastic snapshot at `t = 229 < 200 + 30`. -/
theorem manual_override_pause_noop_witness :
    MoodEngine.notifyManualMood engine0 200 =
      { engine0 with manual_override_until := 200 + engine0.cfg.manual_pause_secs } ∧
    MoodEngine.tick (MoodEngine.notifyManualMood engine0 200)
        { brightness := 0, motion_level := 1, face_present := true,
          face_continuous_secs := 100, face_lost_ago := 0, time := 229 } draws0 =
      (MoodEngine.notifyManualMood engine0 200, []) :=
  manual_override_pause_noop engine0 200
    { brightness := 0, motion_level := 1, face_present := true,
      face_continuous_secs := 100, face_lost_ago := 0, time := 229 } draws0
    (by norm_num [engine0, MoodEngine.initState, cfg0])

/-- C5: for an engine not in SLEEPING, once brightness has stayed below
`sleep_brightness` since `dark_since ≠ 0` (the recorded start of the
dark streak) for at least `dark_to_sleep_secs`, the current tick
transitions to SLEEPING and issues exactly `set_mood("sleepy")`; no
state-specific handler runs and no other field is touched. -/
theorem dark_override_forces_sleeping (s : MoodEngineState) (env : EnvSnap)
    (dr : MoodDraws)
    (hen : s.enabled = true)
    (hov : s.manual_override_until ≤ env.time)
    (hdark : env.brightness < s.cfg.sleep_brightness)
    (hsince : s.dark_since ≠ 0)
    (hdur : env.time - s.dark_since ≥ s.cfg.dark_to_sleep_secs)
    (hst : s.state ≠ MState.SLEEPING) :
    MoodEngine.tick s env dr =
      ({ s with state := MState.SLEEPING, state_entered := env.time }, ["sleepy"]) := by
  simp [MoodEngine.tick, hen, not_lt.mpr hov, hdark, hsince, hdur, hst]

/-- Witness for `dark_override_forces_sleeping`: engine in IDLE, dark
since `t = 60`, ticked with a pitch-dark snapshot at `t = 100 ≥ 60 + 30`. -/
theorem dark_override_forces_sleeping_witness :
    MoodEngine.tick { engine0 with dark_since := 60 }
        { env0 with brightness := 5, time := 100 } draws0 =
      ({ { engine0 with dark_since := 60 } with
          state := MState.SLEEPING
          state_entered := ({ env0 with brightness := 5, time := 100 } : EnvSnap).time },
       ["sleepy"]) :=
  dark_override_forces_sleeping { engine0 with dark_since := 60 }
    { env0 with brightness := 5, time := 100 } draws0
    rfl
    (by norm_num [engine0, MoodEngine.initState])
    (by norm_num [engine0, MoodEngine.initState, cfg0, env0])
    (by norm_num)
    (by norm_num [engine0, MoodEngine.initState, cfg0, env0])
    (by simp [engine0, MoodEngine.initState])

/-- No element the bonded-affection pool can yield (including the
out-of-range default) is the string `"neutral"`. -/
theorem bondedAffection_getD_ne_neutral (j : ℕ) :
    ("neutral" : String) ≠ bondedAffection.getD j "" := by
  match j with
  | 0 => decide
  | 1 => decide
  | 2 => decide
  | 3 => decide
  | (n + 4) =>
      rw [List.getD_eq_default _ _ (by simp [bondedAffection])]
      decide

/-- The BONDED handler can emit `"sad"` or an affection-pool mood but
never `"neutral"`. -/
theorem tickBonded_no_neutral (s : MoodEngineState) (now : ℚ)
    (face_present face_lost : Bool) (dr : MoodDraws) :
    "neutral" ∉ (MoodEngine.tickBonded s now face_present face_lost dr).2 := by
  unfold MoodEngine.tickBonded
  split_ifs
  · simp
  · dsimp only
    simp only [List.mem_singleton]
    exact bondedAffection_getD_ne_neutral _
  · simp

/-- After the global dark check, a tick dispatched from BONDED never
emits `"neutral"`. -/
theorem afterDark_bonded_no_neutral (s : MoodEngineState) (env : EnvSnap)
    (dr : MoodDraws) (h : s.state = MState.BONDED) :
    "neutral" ∉ (MoodEngine.afterDark s env dr).2 := by
  unfold MoodEngine.afterDark
  split_ifs <;> dsimp only <;> rw [h] <;>
    exact tickBonded_no_neutral _ _ _ _ _

/-- C3 (refuting theorem): a tick taken with the engine in BONDED never
issues `set_mood("neutral")`, whatever the snapshot and draws.  The
affection flash sets the revert deadline `_greeting_revert_at`, but that
deadline is only ever checked by `_tick_engaged`, never by
`_tick_bonded`, so while the engine stays in BONDED the promised revert
can never fire. -/
theorem bonded_tick_never_emits_neutral (s : MoodEngineState) (env : EnvSnap)
    (dr : MoodDraws) (h : s.state = MState.BONDED) :
    "neutral" ∉ (MoodEngine.tick s env dr).2 := by
  unfold MoodEngine.tick
  by_cases h1 : s.enabled = false
  · simp [h1]
  · by_cases h2 : env.time < s.manual_override_until
    · simp [h1, h2]
    · by_cases h3 : env.brightness < s.cfg.sleep_brightness
      · by_cases h4 : s.dark_since = 0
        · simpa [h1, h2, h3, h4] using
            afterDark_bonded_no_neutral { s with dark_since := env.time } env dr h
        · by_cases h5 : env.time - s.dark_since ≥ s.cfg.dark_to_sleep_secs ∧
              s.state ≠ MState.SLEEPING
          · simp [h1, h2, h3, h4, h5]
          · simpa [h1, h2, h3, h4, h5] using
              afterDark_bonded_no_neutral s env dr h
      · simpa [h1, h2, h3] using
          afterDark_bonded_no_neutral { s with dark_since := 0 } env dr h

/-- Witness for `bonded_tick_never_emits_neutral`: an engine sitting in
BONDED, face present, ticked at `t = 200` well past the flash revert
deadline `greeting_revert_at = 150`, still emits no "neutral". -/
theorem bonded_tick_never_emits_neutral_witness :
    "neutral" ∉ (MoodEngine.tick { { engine0 with state := MState.BONDED } with
        prev_face_present := true
        greeting_revert_at := 150
        next_bonded_affection := 500 }
      { env0 with face_present := true, face_continuous_secs := 80 } draws0).2 :=
  bonded_tick_never_emits_neutral _ _ _ rfl

/-- C1 (counterexample): configurations with a negative duration and
inverted interval bounds are accepted silently by both constructors —
construction does not reject them. -/
theorem construction_accepts_invalid_config :
    badAnimCfg.blink_duration < 0 ∧
    badAnimCfg.blink_interval_max < badAnimCfg.blink_interval_min ∧
    badMoodCfg.waking_duration < 0 ∧
    badMoodCfg.personality_interval_max < badMoodCfg.personality_interval_min ∧
    EyeAnimator.init badAnimCfg 3 4 =
      Except.ok (EyeAnimator.initState badAnimCfg 3 4) ∧
    MoodEngine.init badMoodCfg 100 10 =
      Except.ok (MoodEngine.initState badMoodCfg 100 10) := by
  refine ⟨?_, ?_, ?_, ?_, rfl, rfl⟩ <;> norm_num [badAnimCfg, badMoodCfg, cfg0]

/-- C1 (amended): construction performs no validation at all — for every
configuration, including ones with negative durations, out-of-range
thresholds or inverted interval bounds, both `MoodEngine.__init__` and
`EyeAnimator.__init__` succeed (no code path rejects). -/
theorem construction_never_rejects (cfg : MoodCfg) (now d : ℚ)
    (acfg : AnimationConfig) (d1 d2 : ℚ) :
    MoodEngine.init cfg now d = Except.ok (MoodEngine.initState cfg now d) ∧
    EyeAnimator.init acfg d1 d2 = Except.ok (EyeAnimator.initState acfg d1 d2) :=
  ⟨rfl, rfl⟩

/-- C6: with no detections this cycle, a call past the lost timeout
clears the smoothed target and returns `None` while the stale raw
target is kept; a call before the timeout keeps the raw target and, if
a raw target exists, does not return `None`. -/
theorem tracker_lost_timeout (s : FaceTrackerState) (W H ts : ℚ) :
    (s.lost_timeout < ts - s.last_detection_time →
      FaceTracker.update s [] W H ts = ({ s with current := none }, none)) ∧
    (ts - s.last_detection_time ≤ s.lost_timeout →
      (FaceTracker.update s [] W H ts).1.raw = s.raw ∧
      (s.raw ≠ none → (FaceTracker.update s [] W H ts).2 ≠ none)) := by
  constructor
  · intro h
    simp [FaceTracker.update, h]
  · intro h
    unfold FaceTracker.update
    rw [if_neg (by exact not_lt.mpr h)]
    cases hr : s.raw with
    | none => simp [hr]
    | some r => cases s.current <;> simp [hr]

/-- Witness for `tracker_lost_timeout`: a tracker with a raw target
recorded at `t = 0` and timeout `1/2`, probed at `t = 2` (times out,
returns `None`, raw kept) and at `t = 1/4` (raw kept, returns a value). -/
theorem tracker_lost_timeout_witness :
    FaceTracker.update { raw := some (1/2, 0) } [] 160 120 2 =
      ({ ({ raw := some (1/2, 0) } : FaceTrackerState) with current := none }, none) ∧
    (FaceTracker.update { raw := some (1/2, 0) } [] 160 120 (1/4)).1.raw =
      ({ raw := some (1/2, 0) } : FaceTrackerState).raw ∧
    (FaceTracker.update { raw := some (1/2, 0) } [] 160 120 (1/4)).2 ≠ none :=
  ⟨(tracker_lost_timeout { raw := some (1/2, 0) } 160 120 2).1 (by norm_num),
   ((tracker_lost_timeout { raw := some (1/2, 0) } 160 120 (1/4)).2 (by norm_num)).1,
   ((tracker_lost_timeout { raw := some (1/2, 0) } 160 120 (1/4)).2 (by norm_num)).2
     (by simp)⟩

/-- Characterization of the `max(faces, key=area)` fold: the result
dominates the accumulator and every list element, and it is either the
accumulator itself or the first list element strictly greater than both
the accumulator and everything before it. -/
theorem pickBiggest_foldl_spec (rest : List Box) (acc : Box) :
    (∀ g ∈ rest, g.area ≤ (FaceTracker.pickBiggest acc rest).area) ∧
    acc.area ≤ (FaceTracker.pickBiggest acc rest).area ∧
    (FaceTracker.pickBiggest acc rest = acc ∨
      ∃ pre post, rest = pre ++ FaceTracker.pickBiggest acc rest :: post ∧
        acc.area < (FaceTracker.pickBiggest acc rest).area ∧
        ∀ g ∈ pre, g.area < (FaceTracker.pickBiggest acc rest).area) := by
  induction rest generalizing acc with
  | nil => exact ⟨by simp, le_refl _, Or.inl rfl⟩
  | cons g rest ih =>
    have hfold : ∀ a : Box, FaceTracker.pickBiggest a (g :: rest) =
        FaceTracker.pickBiggest (if g.area > a.area then g else a) rest :=
      fun a => rfl
    by_cases hg : g.area > acc.area
    · have hre : FaceTracker.pickBiggest acc (g :: rest) =
          FaceTracker.pickBiggest g rest := by rw [hfold, if_pos hg]
      rw [hre]
      obtain ⟨ih1, ih2, ih3⟩ := ih g
      set r := FaceTracker.pickBiggest g rest with hr
      refine ⟨?_, le_trans (le_of_lt hg) ih2, ?_⟩
      · intro x hx
        rcases List.mem_cons.mp hx with hx | hx
        · rw [hx]; exact ih2
        · exact ih1 x hx
      · rcases ih3 with heq | ⟨pre, post, hsplit, hlt, hpre⟩
        · refine Or.inr ⟨[], rest, by rw [heq]; rfl, by rw [heq]; exact hg, by simp⟩
        · refine Or.inr ⟨g :: pre, post, by rw [List.cons_append, ← hsplit],
            lt_trans hg hlt, ?_⟩
          intro x hx
          rcases List.mem_cons.mp hx with hx | hx
          · rw [hx]; exact hlt
          · exact hpre x hx
    · have hre : FaceTracker.pickBiggest acc (g :: rest) =
          FaceTracker.pickBiggest acc rest := by rw [hfold, if_neg hg]
      rw [hre]
      obtain ⟨ih1, ih2, ih3⟩ := ih acc
      set r := FaceTracker.pickBiggest acc rest with hr
      have hgle : g.area ≤ acc.area := le_of_not_lt hg
      refine ⟨?_, ih2, ?_⟩
      · intro x hx
        rcases List.mem_cons.mp hx with hx | hx
        · rw [hx]; exact le_trans hgle ih2
        · exact ih1 x hx
      · rcases ih3 with heq | ⟨pre, post, hsplit, hlt, hpre⟩
        · exact Or.inl heq
        · refine Or.inr ⟨g :: pre, post, by rw [List.cons_append, ← hsplit],
            hlt, ?_⟩
          intro x hx
          rcases List.mem_cons.mp hx with hx | hx
          · rw [hx]; exact lt_of_le_of_lt hgle hlt
          · exact hpre x hx

/-- The raw target recorded by `FaceTracker.update` on a non-empty
detection list, whatever branch follows. -/
theorem tracker_update_raw (s : FaceTrackerState) (f : Box) (rest : List Box)
    (W H ts : ℚ) :
    (FaceTracker.update s (f :: rest) W H ts).1.raw =
      some
        (-(((FaceTracker.pickBiggest f rest).x +
            (FaceTracker.pickBiggest f rest).w / 2) / W * 2 - 1),
         ((FaceTracker.pickBiggest f rest).y +
            (FaceTracker.pickBiggest f rest).h / 2) / H * 2 - 1) := by
  unfold FaceTracker.update
  dsimp only
  split_ifs
  · rfl
  · cases s.current <;> rfl

/-- C7: on a non-empty detection list, the detection with maximum
bounding-box area is selected, ties broken by first position (everything
strictly before the selected box has strictly smaller area); the
recorded raw gaze is the box center normalized by the frame size with
the x axis mirrored, so a box centered at pixel `x = 0` yields raw gaze
`x = +1`, and a center inside the frame yields coordinates in `[-1, 1]`. -/
theorem tracker_picks_first_biggest_and_mirrors_x (s : FaceTrackerState)
    (f : Box) (rest : List Box) (W H ts : ℚ) :
    FaceTracker.pickBiggest f rest ∈ f :: rest ∧
    (∀ g ∈ f :: rest, g.area ≤ (FaceTracker.pickBiggest f rest).area) ∧
    (∃ pre post, f :: rest = pre ++ FaceTracker.pickBiggest f rest :: post ∧
      ∀ g ∈ pre, g.area < (FaceTracker.pickBiggest f rest).area) ∧
    (FaceTracker.update s (f :: rest) W H ts).1.raw =
      some
        (-(((FaceTracker.pickBiggest f rest).x +
            (FaceTracker.pickBiggest f rest).w / 2) / W * 2 - 1),
         ((FaceTracker.pickBiggest f rest).y +
            (FaceTracker.pickBiggest f rest).h / 2) / H * 2 - 1) ∧
    ((FaceTracker.pickBiggest f rest).x + (FaceTracker.pickBiggest f rest).w / 2 = 0 →
      Option.map Prod.fst (FaceTracker.update s (f :: rest) W H ts).1.raw = some 1) ∧
    (0 < W → 0 ≤ (FaceTracker.pickBiggest f rest).x + (FaceTracker.pickBiggest f rest).w / 2 →
      (FaceTracker.pickBiggest f rest).x + (FaceTracker.pickBiggest f rest).w / 2 ≤ W →
      -1 ≤ -(((FaceTracker.pickBiggest f rest).x +
          (FaceTracker.pickBiggest f rest).w / 2) / W * 2 - 1) ∧
      -(((FaceTracker.pickBiggest f rest).x +
          (FaceTracker.pickBiggest f rest).w / 2) / W * 2 - 1) ≤ 1) := by
  obtain ⟨h1, h2, h3⟩ := pickBiggest_foldl_spec rest f
  have hraw := tracker_update_raw s f rest W H ts
  set b := FaceTracker.pickBiggest f rest with hb
  have hmem : b ∈ f :: rest := by
    rcases h3 with heq | ⟨pre, post, hsplit, hlt, hpre⟩
    · rw [heq]; exact List.mem_cons_self f rest
    · refine List.mem_cons_of_mem f ?_
      rw [hsplit]
      exact List.mem_append_right pre (List.mem_cons_self _ post)
  refine ⟨hmem, ?_, ?_, hraw, ?_, ?_⟩
  · intro g hg
    rcases List.mem_cons.mp hg with hg | hg
    · rw [hg]; exact h2
    · exact h1 g hg
  · rcases h3 with heq | ⟨pre, post, hsplit, hlt, hpre⟩
    · exact ⟨[], rest, by rw [heq]; rfl, by simp⟩
    · refine ⟨f :: pre, post, by rw [List.cons_append, ← hsplit], ?_⟩
      intro g hg
      rcases List.mem_cons.mp hg with hg | hg
      · rw [hg]; exact hlt
      · exact hpre g hg
  · intro hc
    rw [tracker_update_raw s f rest W H ts]
    simp [hc]
  · intro hW hc0 hcW
    have hdiv0 : 0 ≤ ((FaceTracker.pickBiggest f rest).x +
        (FaceTracker.pickBiggest f rest).w / 2) / W := div_nonneg hc0 (le_of_lt hW)
    have hdiv1 : ((FaceTracker.pickBiggest f rest).x +
        (FaceTracker.pickBiggest f rest).w / 2) / W ≤ 1 := (div_le_one hW).mpr hcW
    constructor <;> nlinarith

/-- Witness for `tracker_picks_first_biggest_and_mirrors_x` on a
two-box list with the larger box second and centered at pixel `x = 0`:
both hypothesis-bearing conjuncts are discharged concretely. -/
theorem tracker_picks_first_biggest_witness :
    FaceTracker.pickBiggest ⟨10, 10, 4, 4⟩ [⟨-5, 20, 10, 10⟩] ∈
      [(⟨10, 10, 4, 4⟩ : Box), ⟨-5, 20, 10, 10⟩] ∧
    Option.map Prod.fst
      (FaceTracker.update {} [⟨10, 10, 4, 4⟩, ⟨-5, 20, 10, 10⟩] 160 120 0).1.raw =
      some 1 :=
  ⟨(tracker_picks_first_biggest_and_mirrors_x {} ⟨10, 10, 4, 4⟩ [⟨-5, 20, 10, 10⟩]
      160 120 0).1,
   (tracker_picks_first_biggest_and_mirrors_x {} ⟨10, 10, 4, 4⟩ [⟨-5, 20, 10, 10⟩]
      160 120 0).2.2.2.2.1
     (by norm_num [FaceTracker.pickBiggest, Box.area])⟩

/-- The smoothed brightness after `update_from_tracking`, isolated from
the face-edge bookkeeping. -/
theorem update_from_tracking_brightness (s : EnvState) (raw : ℚ)
    (faces : List Box) (pos : Option (ℚ × ℚ)) (w h now : ℚ) :
    (EnvironmentState.update_from_tracking s raw faces pos w h now).brightness =
      if now - s.last_update > 0 then
        s.brightness +
          min 1 ((now - s.last_update) / s.brightness_tau) * (raw - s.brightness)
      else s.brightness := by
  unfold EnvironmentState.update_from_tracking
  dsimp only
  split_ifs <;> rfl

/-- C8: under a positive smoothing time constant, an update with
`dt ≤ 0` leaves the smoothed brightness unchanged, and an update with
`dt > 0` moves it strictly toward the raw brightness without passing it:
the new value lies between the old value and the raw value inclusive. -/
theorem brightness_smoothing_monotone_no_overshoot (s : EnvState) (raw : ℚ)
    (faces : List Box) (pos : Option (ℚ × ℚ)) (w h now : ℚ)
    (htau : 0 < s.brightness_tau) :
    (now - s.last_update ≤ 0 →
      (EnvironmentState.update_from_tracking s raw faces pos w h now).brightness =
        s.brightness) ∧
    (0 < now - s.last_update →
      min s.brightness raw ≤
        (EnvironmentState.update_from_tracking s raw faces pos w h now).brightness ∧
      (EnvironmentState.update_from_tracking s raw faces pos w h now).brightness ≤
        max s.brightness raw ∧
      (s.brightness < raw → s.brightness <
        (EnvironmentState.update_from_tracking s raw faces pos w h now).brightness) ∧
      (raw < s.brightness →
        (EnvironmentState.update_from_tracking s raw faces pos w h now).brightness <
          s.brightness)) := by
  constructor
  · intro hdt
    rw [update_from_tracking_brightness, if_neg (not_lt.mpr hdt)]
  · intro hdt
    rw [update_from_tracking_brightness, if_pos hdt]
    have halpha1 : min 1 ((now - s.last_update) / s.brightness_tau) ≤ 1 :=
      min_le_left _ _
    have halpha0 : 0 < min 1 ((now - s.last_update) / s.brightness_tau) :=
      lt_min one_pos (div_pos hdt htau)
    rcases lt_trichotomy s.brightness raw with hlt | heq | hgt
    · have hmove : 0 < min 1 ((now - s.last_update) / s.brightness_tau) *
          (raw - s.brightness) := mul_pos halpha0 (by linarith)
      have hcap : min 1 ((now - s.last_update) / s.brightness_tau) *
          (raw - s.brightness) ≤ raw - s.brightness := by nlinarith
      refine ⟨le_trans (min_le_left _ _) (by linarith), ?_, fun _ => by linarith,
        fun hc => absurd hc (not_lt.mpr (le_of_lt hlt))⟩
      exact le_trans (by linarith) (le_max_right _ _)
    · simp [heq]
    · have hmove : min 1 ((now - s.last_update) / s.brightness_tau) *
          (raw - s.brightness) < 0 :=
        mul_neg_of_pos_of_neg halpha0 (by linarith)
      have hcap : raw - s.brightness ≤
          min 1 ((now - s.last_update) / s.brightness_tau) * (raw - s.brightness) := by
        nlinarith
      refine ⟨le_trans (min_le_right _ _) (by linarith), ?_,
        fun hc => absurd hc (not_lt.mpr (le_of_lt hgt)), fun _ => by linarith⟩
      exact le_trans (by linarith) (le_max_left _ _)

/-- Witness for `brightness_smoothing_monotone_no_overshoot`: the
default aggregator (brightness 50, tau 1) fed raw brightness 80, first
with `dt = -1 ≤ 0` (no-op), then with `dt = 1/2 > 0` (moves toward 80). -/
theorem brightness_smoothing_witness :
    (EnvironmentState.update_from_tracking { last_update := 10 } 80 [] none 160 120 9).brightness =
      ({ last_update := 10 } : EnvState).brightness ∧
    min ({ last_update := 10 } : EnvState).brightness 80 ≤
      (EnvironmentState.update_from_tracking { last_update := 10 } 80 [] none 160 120 (21/2)).brightness ∧
    (EnvironmentState.update_from_tracking { last_update := 10 } 80 [] none 160 120 (21/2)).brightness ≤
      max ({ last_update := 10 } : EnvState).brightness 80 :=
  ⟨(brightness_smoothing_monotone_no_overshoot { last_update := 10 } 80 [] none 160 120 9
      (by norm_num)).1 (by norm_num),
   ((brightness_smoothing_monotone_no_overshoot { last_update := 10 } 80 [] none 160 120 (21/2)
      (by norm_num)).2 (by norm_num)).1,
   ((brightness_smoothing_monotone_no_overshoot { last_update := 10 } 80 [] none 160 120 (21/2)
      (by norm_num)).2 (by norm_num)).2.1⟩

/-- C9: the blink closure curve is the triangle wave — 0 when not
blinking, 0 at progress 0, exactly 1 at progress 1/2, 0 again at
progress 1 — and on every `update` tick the lower eyelid is exactly
`0.4` times the upper eyelid on both eyes. -/
theorem blink_curve_triangle_and_eyelid_ratio (s : EyeAnimatorState) (dt : ℚ)
    (fp : Option (ℚ × ℚ)) (dr : AnimDraws) :
    EyeAnimator.blinkCurve { s with blinking := false } = 0 ∧
    EyeAnimator.blinkCurve { s with blinking := true, blink_progress := 0 } = 0 ∧
    EyeAnimator.blinkCurve { s with blinking := true, blink_progress := 1/2 } = 1 ∧
    EyeAnimator.blinkCurve { s with blinking := true, blink_progress := 1 } = 0 ∧
    (EyeAnimator.update s dt fp dr).left.lower_eyelid =
      (2/5) * (EyeAnimator.update s dt fp dr).left.upper_eyelid ∧
    (EyeAnimator.update s dt fp dr).right.lower_eyelid =
      (2/5) * (EyeAnimator.update s dt fp dr).right.upper_eyelid := by
  refine ⟨by norm_num [EyeAnimator.blinkCurve], by norm_num [EyeAnimator.blinkCurve],
    by norm_num [EyeAnimator.blinkCurve], by norm_num [EyeAnimator.blinkCurve], ?_, ?_⟩ <;>
  · unfold EyeAnimator.update EyeAnimator.finishUpdate
    dsimp only
    rw [mul_comm]

/-- `clamp` into `[-1, 1]` lands in `[-1, 1]`. -/
theorem clamp_unit_bounds (v : ℚ) : -1 ≤ clamp v (-1) 1 ∧ clamp v (-1) 1 ≤ 1 :=
  ⟨le_max_left _ _, max_le (by norm_num) (min_le_left _ _)⟩

/-- `_update_blink` keeps the configuration. -/
theorem updateBlink_cfg (s : EyeAnimatorState) (dt : ℚ) (dr : AnimDraws) :
    (EyeAnimator.updateBlink s dt dr).cfg = s.cfg := by
  unfold EyeAnimator.updateBlink
  dsimp only
  split_ifs <;> rfl

/-- `_update_idle` touches only the idle fields. -/
theorem updateIdle_blink_fields (s : EyeAnimatorState) (dt : ℚ) (dr : AnimDraws) :
    (EyeAnimator.updateIdle s dt dr).cfg = s.cfg ∧
    (EyeAnimator.updateIdle s dt dr).blink_progress = s.blink_progress := by
  unfold EyeAnimator.updateIdle
  dsimp only
  split_ifs <;> exact ⟨rfl, rfl⟩

/-- `_update_blink` from nonnegative progress, with `dt ≥ 0` and a
positive blink duration, yields nonnegative progress, strictly below 1
whenever the blink is still running. -/
theorem updateBlink_progress_bounds (s : EyeAnimatorState) (dt : ℚ) (dr : AnimDraws)
    (hdt : 0 ≤ dt) (hdur : 0 < s.cfg.blink_duration) (hp : 0 ≤ s.blink_progress) :
    0 ≤ (EyeAnimator.updateBlink s dt dr).blink_progress ∧
    ((EyeAnimator.updateBlink s dt dr).blinking = true →
      (EyeAnimator.updateBlink s dt dr).blink_progress < 1) := by
  unfold EyeAnimator.updateBlink
  dsimp only
  split_ifs with h1 h2 h3
  · simp
  · have : 0 ≤ dt / s.cfg.blink_duration := div_nonneg hdt (le_of_lt hdur)
    exact ⟨by dsimp only; linarith, fun _ => by dsimp only; linarith [not_le.mp h2]⟩
  · exact ⟨le_refl _, fun _ => one_pos⟩
  · exact ⟨hp, fun hb => absurd hb h1⟩

/-- The eyelid closure stays in `[0, 1]` when the running blink's
progress is in `[0, 1)`. -/
theorem blinkCurve_bounds (s : EyeAnimatorState)
    (h : s.blinking = true → 0 ≤ s.blink_progress ∧ s.blink_progress < 1) :
    0 ≤ EyeAnimator.blinkCurve s ∧ EyeAnimator.blinkCurve s ≤ 1 := by
  have hb : ¬(s.blinking = false) → s.blinking = true := by
    cases s.blinking <;> simp
  unfold EyeAnimator.blinkCurve
  split_ifs with h1 h2
  · norm_num
  · obtain ⟨hp0, hp1⟩ := h (hb h1)
    constructor <;> linarith
  · obtain ⟨hp0, hp1⟩ := h (hb h1)
    have hp2 : 1/2 ≤ s.blink_progress := not_lt.mp h2
    constructor <;> linarith

/-- The gaze half of `update` does not touch the configuration or the
blink progress. -/
theorem gazeStep_blink_fields (s : EyeAnimatorState) (dt : ℚ)
    (fp : Option (ℚ × ℚ)) (dr : AnimDraws) :
    (EyeAnimator.gazeStep s dt fp dr).cfg = s.cfg ∧
    (EyeAnimator.gazeStep s dt fp dr).blink_progress = s.blink_progress := by
  unfold EyeAnimator.gazeStep
  cases fp with
  | some p => exact ⟨rfl, rfl⟩
  | none =>
      dsimp only
      split_ifs <;>
        first
          | exact ⟨(updateIdle_blink_fields _ dt dr).1,
              (updateIdle_blink_fields _ dt dr).2⟩
          | exact ⟨rfl, rfl⟩

/-- The output half of `update`, from a state with nonnegative blink
progress and positive blink duration, keeps the configuration, keeps
the progress nonnegative, and produces both eyes within the guaranteed
bounds. -/
theorem finishUpdate_bounds (u : EyeAnimatorState) (dt : ℚ) (dr : AnimDraws)
    (hdt : 0 ≤ dt) (hdur : 0 < u.cfg.blink_duration) (hp : 0 ≤ u.blink_progress) :
    (EyeAnimator.finishUpdate u dt dr).cfg = u.cfg ∧
    0 ≤ (EyeAnimator.finishUpdate u dt dr).blink_progress ∧
    eyeBounded (EyeAnimator.finishUpdate u dt dr).left ∧
    eyeBounded (EyeAnimator.finishUpdate u dt dr).right := by
  obtain ⟨hb0, hb1⟩ := updateBlink_progress_bounds u dt dr hdt hdur hp
  obtain ⟨hc0, hc1⟩ := blinkCurve_bounds (EyeAnimator.updateBlink u dt dr)
    (fun hb => ⟨hb0, hb1 hb⟩)
  obtain ⟨hx0, hx1⟩ := clamp_unit_bounds (EyeAnimator.updateBlink u dt dr).current_gaze.1
  obtain ⟨hy0, hy1⟩ := clamp_unit_bounds (EyeAnimator.updateBlink u dt dr).current_gaze.2
  unfold EyeAnimator.finishUpdate
  dsimp only
  refine ⟨updateBlink_cfg u dt dr, hb0, ?_, ?_⟩ <;>
  · dsimp only [eyeBounded]
    refine ⟨?_, ?_, ?_, ?_, ?_, ?_, ?_, ?_⟩ <;> dsimp only <;>
      first
        | linarith
        | nlinarith

/-- One `update` step, from a state with nonnegative blink progress and
a positive configured blink duration, keeps the configuration and the
progress invariant and produces eye states within the guaranteed
bounds. -/
theorem update_preserves_invariant (s : EyeAnimatorState) (dt : ℚ)
    (fp : Option (ℚ × ℚ)) (dr : AnimDraws) (hdt : 0 ≤ dt)
    (hdur : 0 < s.cfg.blink_duration) (hp : 0 ≤ s.blink_progress) :
    (EyeAnimator.update s dt fp dr).cfg = s.cfg ∧
    0 ≤ (EyeAnimator.update s dt fp dr).blink_progress ∧
    eyeBounded (EyeAnimator.update s dt fp dr).left ∧
    eyeBounded (EyeAnimator.update s dt fp dr).right := by
  have hg := gazeStep_blink_fields s dt fp dr
  have h := finishUpdate_bounds (EyeAnimator.gazeStep s dt fp dr) dt dr hdt
    (by rw [hg.1]; exact hdur) (by rw [hg.2]; exact hp)
  exact ⟨h.1.trans hg.1, h.2.1, h.2.2.1, h.2.2.2⟩

/-- The run-level invariant behind the eye-state bounds: configuration
and nonnegative blink progress are preserved along any run with
nonnegative frame times, and both produced eyes stay bounded. -/
theorem animator_run_invariant (cfg : AnimationConfig) (dIdle dBlink : ℚ)
    (inputs : List (ℚ × Option (ℚ × ℚ) × AnimDraws))
    (hdur : 0 < cfg.blink_duration) (hdts : ∀ i ∈ inputs, 0 ≤ i.1) :
    (EyeAnimator.run cfg dIdle dBlink inputs).cfg = cfg ∧
    0 ≤ (EyeAnimator.run cfg dIdle dBlink inputs).blink_progress ∧
    eyeBounded (EyeAnimator.run cfg dIdle dBlink inputs).left ∧
    eyeBounded (EyeAnimator.run cfg dIdle dBlink inputs).right := by
  suffices hgen : ∀ (l : List (ℚ × Option (ℚ × ℚ) × AnimDraws))
      (t : EyeAnimatorState), (∀ i ∈ l, 0 ≤ i.1) → t.cfg = cfg →
      0 ≤ t.blink_progress → eyeBounded t.left → eyeBounded t.right →
      (l.foldl (fun u i => EyeAnimator.update u i.1 i.2.1 i.2.2) t).cfg = cfg ∧
      0 ≤ (l.foldl (fun u i => EyeAnimator.update u i.1 i.2.1 i.2.2) t).blink_progress ∧
      eyeBounded (l.foldl (fun u i => EyeAnimator.update u i.1 i.2.1 i.2.2) t).left ∧
      eyeBounded (l.foldl (fun u i => EyeAnimator.update u i.1 i.2.1 i.2.2) t).right by
    refine hgen inputs (EyeAnimator.initState cfg dIdle dBlink) hdts rfl (le_refl 0) ?_ ?_ <;>
    · dsimp only [EyeAnimator.initState, eyeBounded]
      norm_num
  intro l
  induction l with
  | nil => exact fun t _ hcfg hpr hl hr => ⟨hcfg, hpr, hl, hr⟩
  | cons i l ih =>
      intro t hdts' hcfg hpr hl hr
      have hstep := update_preserves_invariant t i.1 i.2.1 i.2.2
        (hdts' i (List.mem_cons_self i l)) (hcfg ▸ hdur) hpr
      exact ih _ (fun j hj => hdts' j (List.mem_cons_of_mem i hj))
        (hstep.1.trans hcfg) hstep.2.1 hstep.2.2.1 hstep.2.2.2

/-- C4 (counterexample): starting from a freshly constructed animator
with the default configuration and feeding it 22 frames with `dt = 0`
and a face target pinned at `(1, 0)` — inside the documented `[-1, 1]²`
domain — the smoothed gaze exceeds `0.97`, and after clamping the
vergence offset pushes the left eye's `pupil_x` strictly above 1. -/
theorem eye_vergence_exceeds_unit_range :
    1 < (EyeAnimator.run {} 3 4 gazeCornerInputs).left.pupil_x := by
  norm_num [EyeAnimator.run, gazeCornerInputs, List.replicate, EyeAnimator.update,
    EyeAnimator.gazeStep, EyeAnimator.finishUpdate, EyeAnimator.updateIdle,
    EyeAnimator.initState, EyeAnimator.updateBlink, EyeAnimator.blinkCurve,
    lerp, clamp, animDraws0]

/-- C4 (amended): for every configuration with a positive blink
duration and every run with nonnegative frame times from a freshly
constructed animator, both returned eye states satisfy
`pupil_y ∈ [-1, 1]`, `upper_eyelid, lower_eyelid ∈ [0, 1]`, and
`pupil_x ∈ [-1 - v, 1 + v]` with `v = 3/100` the vergence offset —
`pupil_x` can leave `[-1, 1]` by up to the vergence offset because the
offset is applied after clamping. -/
theorem eye_state_bounds_with_vergence (cfg : AnimationConfig) (dIdle dBlink : ℚ)
    (inputs : List (ℚ × Option (ℚ × ℚ) × AnimDraws))
    (hdur : 0 < cfg.blink_duration) (hdts : ∀ i ∈ inputs, 0 ≤ i.1) :
    eyeBounded (EyeAnimator.run cfg dIdle dBlink inputs).left ∧
    eyeBounded (EyeAnimator.run cfg dIdle dBlink inputs).right :=
  ⟨(animator_run_invariant cfg dIdle dBlink inputs hdur hdts).2.2.1,
   (animator_run_invariant cfg dIdle dBlink inputs hdur hdts).2.2.2⟩

/-- Witness for `eye_state_bounds_with_vergence`: one frame with
`dt = 1/30` and no face, on the default configuration. -/
theorem eye_state_bounds_with_vergence_witness :
    eyeBounded (EyeAnimator.run {} 3 4 [(1/30, none, animDraws0)]).left ∧
    eyeBounded (EyeAnimator.run {} 3 4 [(1/30, none, animDraws0)]).right :=
  eye_state_bounds_with_vergence {} 3 4 [(1/30, none, animDraws0)]
    (by norm_num : (0 : ℚ) < 1/5)
    (by intro i hi; rw [List.mem_singleton] at hi; rw [hi]; norm_num)

end RobotHead
